import Mathlib

/-!
Shallow embedding of the hologram-assistant client core
(`AppState` store, `WSManager` transport channel and message router,
voice adapter handlers), with theorems checking the specification's
claims against the code.

Source layout:
* `AppState` (state store with subscribers) and `WSManager`
  (WebSocket channel, router, throttled mode sync) live in the core file.
* The voice adapter registers audio-element callbacks and router
  listeners that mutate the store's voice sub-state.

Conventions of the embedding:
* JS strings stay `String`; `null` becomes `none`.
* Subscriber / listener callbacks are identified by `Nat` ids; an
  "invocation" is the pair (callback id, argument it was called with).
* `Date.now()` values are `Int` milliseconds passed in explicitly.
* The host `JSON.parse` is an abstract fallible parameter
  `parse : String → Option Msg`.
-/

namespace Holo

/-- The three-field state object held by `AppState._state`:
`mode` is `"VISION" | "VOICE" | null`, `wsStatus` one of
`"CONNECTED" | "DISCONNECTED" | "RECONNECTING"`, `voiceState` one of
`"IDLE" | "REQUESTED" | "LISTENING" | "WAITING" | "PLAYING"`.
The code stores plain strings, so we do too. -/
structure StoreState where
  mode : Option String
  wsStatus : String
  voiceState : String
deriving DecidableEq, Repr

/-- Initial `AppState._state`. -/
def initState : StoreState :=
  { mode := none, wsStatus := "DISCONNECTED", voiceState := "IDLE" }

/-- `AppState.setMode(value)`: short-circuits when unchanged, else mutates
and notifies.  The returned `Bool` records whether `_notify` ran. -/
def setMode (s : StoreState) (value : Option String) : StoreState × Bool :=
  if s.mode = value then (s, false)
  else ({ s with mode := value }, true)

/-- `AppState.setWSStatus(value)` (the spec calls it `setStatus`). -/
def setWSStatus (s : StoreState) (value : String) : StoreState × Bool :=
  if s.wsStatus = value then (s, false)
  else ({ s with wsStatus := value }, true)

/-- `AppState.setVoiceState(value)`. -/
def setVoiceState (s : StoreState) (value : String) : StoreState × Bool :=
  if s.voiceState = value then (s, false)
  else ({ s with voiceState := value }, true)

/-- One call to one of the three strict setters. -/
inductive SetterCall
  | callSetMode (v : Option String)
  | callSetWSStatus (v : String)
  | callSetVoiceState (v : String)
deriving DecidableEq, Repr

/-- Dispatch a `SetterCall` to the corresponding setter. -/
def applyCall (s : StoreState) : SetterCall → StoreState × Bool
  | .callSetMode v => setMode s v
  | .callSetWSStatus v => setWSStatus s v
  | .callSetVoiceState v => setVoiceState s v

/-- `AppState._notify()`: `this._listeners.forEach(l => l(this._state))` —
every listener is invoked once, in list order, with the current state. -/
def notify (listeners : List Nat) (s : StoreState) : List (Nat × StoreState) :=
  listeners.map (fun l => (l, s))

/-- Run a sequence of setter calls against a fixed listener list,
collecting the final state and every subscriber invocation in order. -/
def runCalls (s : StoreState) (listeners : List Nat) :
    List SetterCall → StoreState × List (Nat × StoreState)
  | [] => (s, [])
  | c :: cs =>
    let (s', notified) := applyCall s c
    let evts := if notified then notify listeners s' else []
    let (sf, rest) := runCalls s' listeners cs
    (sf, evts ++ rest)

/-- Spec-side predicate: does this call's argument differ from the
corresponding field's current value? -/
def changesField (s : StoreState) : SetterCall → Bool
  | .callSetMode v => s.mode ≠ v
  | .callSetWSStatus v => s.wsStatus ≠ v
  | .callSetVoiceState v => s.voiceState ≠ v

/-- Spec-side count of the calls in a sequence whose argument differs from
the field's value at the moment of the call. -/
def countChanging (s : StoreState) : List SetterCall → Nat
  | [] => 0
  | c :: cs =>
    (if changesField s c then 1 else 0) + countChanging (applyCall s c).1 cs

/-- Number of invocations delivered to callback id `l` in an event list. -/
def countInvocations (l : Nat) (evts : List (Nat × StoreState)) : Nat :=
  (evts.filter (fun e => e.1 = l)).length

/-- The store object: the state plus the `_listeners` array. -/
structure Store where
  state : StoreState
  listeners : List Nat
deriving DecidableEq, Repr

/-- `AppState.subscribe(callback)`: pushes the callback, invokes it once
immediately with the current state, and returns (in the code, as a
closure) the ability to unsubscribe.  Here it returns the updated store
and the one immediate invocation event. -/
def Store.subscribeCb (st : Store) (cb : Nat) : Store × (Nat × StoreState) :=
  ({ st with listeners := st.listeners ++ [cb] }, (cb, st.state))

/-- The unsubscribe closure returned by `subscribe`:
`this._listeners = this._listeners.filter(l => l !== callback)`. -/
def Store.unsubscribeCb (st : Store) (cb : Nat) : Store :=
  { st with listeners := st.listeners.filter (fun l => l ≠ cb) }

-- --- WebSocket Manager -------------------------------------------------

/-- Browser `WebSocket.readyState` values. -/
inductive ReadyState
  | CONNECTING
  | OPEN
  | CLOSING
  | CLOSED
deriving DecidableEq, Repr

/-- An outbound JSON frame `{type:"mode", value: ...}` (the only frame
`sendMode` produces). -/
structure OutMsg where
  type : String
  value : String
deriving DecidableEq, Repr

/-- `WSManager` instance fields relevant to mode sync: `this.ws` (the
current socket, `null` before the first connect), `this.lastModeSwitch`
(initially `0`) and `this.modeThrottle` (`1000` ms). -/
structure WSManager where
  ws : Option ReadyState
  lastModeSwitch : Int
  modeThrottle : Int
  reconnectInterval : Int
deriving DecidableEq, Repr

/-- The constructor's field initialisation. -/
def WSManager.mk0 : WSManager :=
  { ws := none, lastModeSwitch := 0, modeThrottle := 1000,
    reconnectInterval := 3000 }

/-- `WSManager.send(data)`: transmits only when
`this.ws && this.ws.readyState === WebSocket.OPEN`, returning `true`;
otherwise logs and returns `false`.  The second component lists the
frames actually handed to the socket. -/
def WSManager.sendFrame (m : WSManager) (data : OutMsg) : Bool × List OutMsg :=
  if m.ws = some .OPEN then (true, [data]) else (false, [])

/-- Which branch a `sendMode` call took. -/
inductive SendOutcome
  | throttled
  | sent
  | failed
deriving DecidableEq, Repr

/-- `WSManager.sendMode(mode, force = false)`:
drops the call when not forced and less than `modeThrottle` ms elapsed
since `lastModeSwitch`; otherwise calls `send`, and updates
`lastModeSwitch` to `now` only when `send` returned `true`. -/
def WSManager.sendMode (m : WSManager) (now : Int) (mode : String)
    (force : Bool) : WSManager × List OutMsg × SendOutcome :=
  if !force && (now - m.lastModeSwitch < m.modeThrottle) then
    (m, [], .throttled)
  else
    match m.sendFrame { type := "mode", value := mode } with
    | (true, out) => ({ m with lastModeSwitch := now }, out, .sent)
    | (false, out) => (m, out, .failed)

-- --- Message Router ----------------------------------------------------

/-- An inbound message as the router sees it: `data.type` and (read only
when `type === "action"`) `data.action`. -/
structure Msg where
  type : String
  action : String
deriving DecidableEq, Repr

/-- `this.handlers`: a `Map` from string keys to callback arrays, kept as
an insertion-ordered association list (JS `Map` preserves insertion
order; `push` appends). -/
abbrev Handlers := List (String × List Nat)

/-- `this.handlers.get(key) || []`. -/
def getHandlers (hs : Handlers) (key : String) : List Nat :=
  match hs.find? (fun p => p.1 = key) with
  | some p => p.2
  | none => []

/-- `WSManager.on(type, callback)`: creates the key with an empty array
when absent, then pushes the callback. -/
def onKey (hs : Handlers) (type : String) (cb : Nat) : Handlers :=
  if hs.any (fun p => p.1 = type) then
    hs.map (fun p => if p.1 = type then (p.1, p.2 ++ [cb]) else p)
  else
    hs ++ [(type, [cb])]

/-- Apply a whole registration sequence (pairs key ↦ callback) with
`on`, starting from the empty `Map`. -/
def applyRegs (regs : List (String × Nat)) : Handlers :=
  regs.foldl (fun hs r => onKey hs r.1 r.2) []

/-- Spec-side view of a registration list: the callbacks registered under
`key`, in registration order. -/
def listenersOf (regs : List (String × Nat)) (key : String) : List Nat :=
  (regs.filter (fun r => r.1 = key)).map (fun r => r.2)

/-- `WSManager._routeMessage(data)`: invoke all `data.type` listeners in
order, then — only when `data.type === "action"` — all
`action:<data.action>` listeners.  Returns the invocation list. -/
def routeMessage (hs : Handlers) (data : Msg) : List (Nat × Msg) :=
  let listeners := getHandlers hs data.type
  let first := listeners.map (fun cb => (cb, data))
  if data.type = "action" then
    first ++ (getHandlers hs ("action:" ++ data.action)).map (fun cb => (cb, data))
  else
    first

/-- `ws.onmessage`: `try { const data = JSON.parse(event.data);
this._routeMessage(data); } catch (e) { console.error(...); }`.
`JSON.parse` is abstracted as a fallible `parse`; the handler never
touches the socket, so the manager is returned unchanged in both
branches. -/
def onMessage (m : WSManager) (hs : Handlers) (parse : String → Option Msg)
    (frame : String) : WSManager × List (Nat × Msg) :=
  match parse frame with
  | some data => (m, routeMessage hs data)
  | none => (m, [])

-- --- Voice adapter (action:speak audio callbacks, state/error listeners)

/-- Events that reach the voice adapter's handlers: the three local audio
element callbacks installed by the `action:speak` handler, and the two
store-mutating router listeners (`state`, `error`). -/
inductive VoiceEvent
  | audioOnPlay
  | audioOnEnded
  | audioOnError
  | stateMsg (value : String)
  | errorMsg (message : String)
deriving DecidableEq, Repr

/-- Effect of each voice-adapter handler on the store state.
`currentAudio.onplay` sets the voice sub-state to `PLAYING`;
`onended` and `onerror` set it to `IDLE` (no mode guard in these
closures); the `state` listener sets it to the message's `value` and the
`error` listener to `IDLE`, both only when `AppState.mode === 'VOICE'`. -/
def voiceHandle (s : StoreState) : VoiceEvent → StoreState
  | .audioOnPlay => (setVoiceState s "PLAYING").1
  | .audioOnEnded => (setVoiceState s "IDLE").1
  | .audioOnError => (setVoiceState s "IDLE").1
  | .stateMsg v => if s.mode = some "VOICE" then (setVoiceState s v).1 else s
  | .errorMsg _ => if s.mode = some "VOICE" then (setVoiceState s "IDLE").1 else s

-- --- Connection lifecycle machine for the core WSManager ---------------

/-- Whole-page system state for the core file: the manager (whose `ws` is
the current socket), every socket it has replaced, the store state, the
pending reconnect timeouts (each recorded with its delay in ms, in
scheduling order) and the frames handed to open sockets so far. -/
structure Sys3 where
  mgr : WSManager
  oldSockets : List ReadyState
  app : StoreState
  timers : List Int
  outbox : List OutMsg
deriving DecidableEq, Repr

/-- `WSManager.connect()`: returns immediately when the current socket is
`OPEN` or `CONNECTING`; otherwise `this.ws = new WebSocket(this.url)` —
the old socket (if any) is displaced into `oldSockets` and a fresh
`CONNECTING` socket becomes current. -/
def connect (s : Sys3) : Sys3 :=
  if s.mgr.ws = some ReadyState.OPEN ∨ s.mgr.ws = some ReadyState.CONNECTING then
    s
  else
    { s with
      mgr := { s.mgr with ws := some ReadyState.CONNECTING }
      oldSockets :=
        match s.mgr.ws with
        | some r => r :: s.oldSockets
        | none => s.oldSockets }

/-- The mode-selection part of `AppState.showView(viewName)`:
`if (viewName === 'vision') this.setMode('VISION')` etc. for `voice` and
`portal`. -/
def viewMode (app : StoreState) (viewName : String) : StoreState :=
  let app1 := if viewName = "vision" then (setMode app (some "VISION")).1 else app
  let app2 := if viewName = "voice" then (setMode app1 (some "VOICE")).1 else app1
  if viewName = "portal" then (setMode app2 none).1 else app2

/-- `AppState.showView(viewName)`: selects the mode from the view name
via `setMode`, then — DOM work aside — if a non-null mode is now active,
`wsManager.sendMode(this.mode)` (not forced). -/
def showView (s : Sys3) (viewName : String) (now : Int) : Sys3 :=
  match (viewMode s.app viewName).mode with
  | some md =>
    let r := s.mgr.sendMode now md false
    { s with app := viewMode s.app viewName, mgr := r.1, outbox := s.outbox ++ r.2.1 }
  | none => { s with app := viewMode s.app viewName }

/-- Events delivered by the browser event loop to the core file's
callbacks.  `openEvt` and `showViewEvt` carry the `Date.now()` value
observed inside the handler; `showViewEvt` is a UI-triggered
`AppState.showView` call. -/
inductive Ev3
  | openEvt (now : Int)
  | closeEvt
  | errorEvt
  | timerFire
  | showViewEvt (viewName : String) (now : Int)
deriving DecidableEq, Repr

/-- One event-loop step of the core file.

* `ws.onopen` (fires only for a `CONNECTING` socket): socket becomes
  `OPEN`, `AppState.setWSStatus("CONNECTED")`, and if `AppState.mode` is
  set, `this.sendMode(AppState.mode, true)`.
* `ws.onclose` (fires for a live socket): socket becomes `CLOSED`,
  `AppState.setWSStatus("DISCONNECTED")`, and
  `setTimeout(..., this.reconnectInterval)` is scheduled.
* `ws.onerror`: log only, no state change.
* a scheduled reconnect timeout firing:
  `AppState.setWSStatus("RECONNECTING")` then `this.connect()`.

`onOpen` is the body of the `ws.onopen` callback:
`AppState.setWSStatus("CONNECTED")`, then, when `AppState.mode` is set,
`this.sendMode(AppState.mode, true)`; it returns the updated manager and
store state plus the frames handed to the socket. -/
def onOpen (mgr : WSManager) (app : StoreState) (now : Int) :
    WSManager × StoreState × List OutMsg :=
  let app1 := (setWSStatus app "CONNECTED").1
  match app1.mode with
  | some md =>
    let r := mgr.sendMode now md true
    (r.1, app1, r.2.1)
  | none => (mgr, app1, [])

def step3 (s : Sys3) : Ev3 → Sys3
  | .openEvt now =>
    if s.mgr.ws = some ReadyState.CONNECTING then
      let r := onOpen { s.mgr with ws := some ReadyState.OPEN } s.app now
      { s with mgr := r.1, app := r.2.1, outbox := s.outbox ++ r.2.2 }
    else s
  | .closeEvt =>
    if s.mgr.ws = some ReadyState.CONNECTING ∨ s.mgr.ws = some ReadyState.OPEN then
      { s with
        mgr := { s.mgr with ws := some ReadyState.CLOSED }
        app := (setWSStatus s.app "DISCONNECTED").1
        timers := s.timers ++ [s.mgr.reconnectInterval] }
    else s
  | .errorEvt => s
  | .timerFire =>
    match s.timers with
    | [] => s
    | _ :: rest =>
      connect { s with timers := rest,
                       app := (setWSStatus s.app "RECONNECTING").1 }
  | .showViewEvt viewName now => showView s viewName now

/-- Page load: `const wsManager = new WSManager(url); wsManager.connect()`
with the store in its initial state. -/
def init3 : Sys3 :=
  connect { mgr := WSManager.mk0, oldSockets := [], app := initState,
            timers := [], outbox := [] }

/-- Run the core file's event loop from page load. -/
def run3 (evs : List Ev3) : Sys3 :=
  evs.foldl step3 init3

/-- A socket that is open or opening. -/
def isLive : ReadyState → Bool
  | .OPEN => true
  | .CONNECTING => true
  | _ => false

/-- Number of open-or-opening sockets ever created by the core file. -/
def liveCount (s : Sys3) : Nat :=
  ((s.mgr.ws.toList ++ s.oldSockets).filter isLive).length

-- --- Connection lifecycle machine for the legacy client file -----------

/-- System state for the legacy client file's `connectWebSocket` logic:
the `socket` variable, displaced sockets, and pending reconnect
timeouts. -/
structure Sys2 where
  socket : Option ReadyState
  oldSockets : List ReadyState
  timers : List Int
deriving DecidableEq, Repr

/-- `connectWebSocket()`: unconditionally `socket = new WebSocket(WS_URL)`
(no open/opening guard inside the function itself). -/
def connectWebSocket (s : Sys2) : Sys2 :=
  { s with
    socket := some ReadyState.CONNECTING
    oldSockets :=
      match s.socket with
      | some r => r :: s.oldSockets
      | none => s.oldSockets }

/-- Events delivered to the legacy client file's callbacks. -/
inductive Ev2
  | openEvt
  | closeEvt
  | errorEvt
  | timerFire
deriving DecidableEq, Repr

/-- One event-loop step of the legacy client file.  `socket.onclose`
schedules a 3000 ms timeout; when it fires, `connectWebSocket()` is
called only under the guard
`socket?.readyState === WebSocket.CLOSED`. -/
def step2 (s : Sys2) : Ev2 → Sys2
  | .openEvt =>
    if s.socket = some ReadyState.CONNECTING then
      { s with socket := some ReadyState.OPEN }
    else s
  | .closeEvt =>
    if s.socket = some ReadyState.CONNECTING ∨ s.socket = some ReadyState.OPEN then
      { s with socket := some ReadyState.CLOSED, timers := s.timers ++ [3000] }
    else s
  | .errorEvt => s
  | .timerFire =>
    match s.timers with
    | [] => s
    | _ :: rest =>
      let s1 := { s with timers := rest }
      if s1.socket = some ReadyState.CLOSED then connectWebSocket s1 else s1

/-- Page load of the legacy client: `connectWebSocket()` once. -/
def init2 : Sys2 :=
  connectWebSocket { socket := none, oldSockets := [], timers := [] }

/-- Run the legacy client's event loop from page load. -/
def run2 (evs : List Ev2) : Sys2 :=
  evs.foldl step2 init2

/-- Number of open-or-opening sockets ever created by the legacy client. -/
def liveCount2 (s : Sys2) : Nat :=
  ((s.socket.toList ++ s.oldSockets).filter isLive).length

/-- All sockets the core file ever created (current one first). -/
def sockets3 (s : Sys3) : List ReadyState :=
  s.mgr.ws.toList ++ s.oldSockets

/-- All sockets the legacy client ever created (current one first). -/
def sockets2 (s : Sys2) : List ReadyState :=
  s.socket.toList ++ s.oldSockets

/-- Reachable-state invariant of the core file's lifecycle: every
displaced socket is closed, the current socket is never in `CLOSING`
state (nothing calls `ws.close()`), and the constructor's constants are
intact. -/
def Inv3 (s : Sys3) : Prop :=
  (∀ r ∈ s.oldSockets, r = ReadyState.CLOSED) ∧
  s.mgr.ws ≠ some ReadyState.CLOSING ∧
  s.mgr.modeThrottle = 1000 ∧
  s.mgr.reconnectInterval = 3000

/-- Reachable-state invariant of the legacy client's lifecycle. -/
def Inv2 (s : Sys2) : Prop :=
  (∀ r ∈ s.oldSockets, r = ReadyState.CLOSED) ∧
  s.socket ≠ some ReadyState.CLOSING

end Holo

namespace Holo

lemma applyCall_fst_of_not_changes (s : StoreState) (c : SetterCall)
    (h : changesField s c = false) : applyCall s c = (s, false) := by
  cases c <;> simp [changesField, decide_eq_false_iff_not] at h <;>
    simp [applyCall, setMode, setWSStatus, setVoiceState, h]

lemma applyCall_snd_eq_changes (s : StoreState) (c : SetterCall) :
    (applyCall s c).2 = changesField s c := by
  cases c <;>
    simp [applyCall, setMode, setWSStatus, setVoiceState, changesField] <;>
    split <;> simp_all

lemma countInvocations_append (l : Nat) (a b : List (Nat × StoreState)) :
    countInvocations l (a ++ b) = countInvocations l a + countInvocations l b := by
  simp [countInvocations]

lemma countInvocations_notify (l : Nat) (listeners : List Nat) (s : StoreState) :
    countInvocations l (notify listeners s) = listeners.count l := by
  induction listeners with
  | nil => rfl
  | cons x xs ih =>
    unfold countInvocations notify at ih ⊢
    by_cases hx : x = l
    · subst hx
      simp [List.filter_cons, List.count_cons, ih]
    · simp [List.filter_cons, List.count_cons, hx, ih]

/-- Core counting lemma: over any call sequence, a callback id receives
`(listeners.count l) *` (number of value-changing calls) invocations. -/
lemma countInvocations_runCalls (s : StoreState) (listeners : List Nat)
    (cs : List SetterCall) (l : Nat) :
    countInvocations l (runCalls s listeners cs).2 =
      listeners.count l * countChanging s cs := by
  induction cs generalizing s with
  | nil => simp [runCalls, countInvocations, countChanging]
  | cons c cs ih =>
    have hsnd := applyCall_snd_eq_changes s c
    by_cases hch : changesField s c = true
    · simp [runCalls, countChanging, hch, hsnd, countInvocations_append,
        countInvocations_notify, ih, Nat.mul_add, Nat.mul_one, Nat.add_comm]
    · have hf : changesField s c = false := by simpa using hch
      simp [runCalls, countChanging, hf, hsnd, countInvocations_append, ih]

lemma sendMode_preserves (m : WSManager) (now : Int) (mode : String)
    (force : Bool) :
    (m.sendMode now mode force).1.ws = m.ws ∧
    (m.sendMode now mode force).1.modeThrottle = m.modeThrottle ∧
    (m.sendMode now mode force).1.reconnectInterval = m.reconnectInterval := by
  unfold WSManager.sendMode WSManager.sendFrame
  split
  · exact ⟨rfl, rfl, rfl⟩
  · by_cases hopen : m.ws = some ReadyState.OPEN <;> simp [hopen]

lemma onOpen_preserves (mgr : WSManager) (app : StoreState) (now : Int) :
    (onOpen mgr app now).1.ws = mgr.ws ∧
    (onOpen mgr app now).1.modeThrottle = mgr.modeThrottle ∧
    (onOpen mgr app now).1.reconnectInterval = mgr.reconnectInterval := by
  unfold onOpen
  cases hmode : (setWSStatus app "CONNECTED").1.mode with
  | some md => simpa [hmode] using sendMode_preserves mgr now md true
  | none => simp [hmode]

lemma showView_preserves (s : Sys3) (viewName : String) (now : Int) :
    (showView s viewName now).oldSockets = s.oldSockets ∧
    (showView s viewName now).mgr.ws = s.mgr.ws ∧
    (showView s viewName now).mgr.modeThrottle = s.mgr.modeThrottle ∧
    (showView s viewName now).mgr.reconnectInterval = s.mgr.reconnectInterval ∧
    (showView s viewName now).timers = s.timers := by
  unfold showView
  cases hmode : (viewMode s.app viewName).mode with
  | some md =>
    have hp := sendMode_preserves s.mgr now md false
    simp [hmode, hp.1, hp.2.1, hp.2.2]
  | none => simp [hmode]

lemma inv3_connect {s : Sys3} (h : Inv3 s) : Inv3 (connect s) := by
  obtain ⟨hold, hcl, ht, hr⟩ := h
  unfold connect
  split
  · exact ⟨hold, hcl, ht, hr⟩
  · rename_i hlive
    push_neg at hlive
    refine ⟨?_, by simp, ht, hr⟩
    cases hws : s.mgr.ws with
    | none => simpa [hws] using hold
    | some r =>
      cases r with
      | CONNECTING => exact absurd hws hlive.2
      | OPEN => exact absurd hws hlive.1
      | CLOSING => exact absurd hws hcl
      | CLOSED =>
        simp [hws]
        intro x hx
        exact hold x hx

lemma inv3_step {s : Sys3} (h : Inv3 s) (e : Ev3) : Inv3 (step3 s e) := by
  obtain ⟨hold, hcl, ht, hr⟩ := h
  cases e with
  | openEvt now =>
    simp only [step3]
    split
    · refine ⟨hold, ?_, ?_, ?_⟩
      · show (onOpen { s.mgr with ws := some ReadyState.OPEN } s.app now).1.ws ≠
            some ReadyState.CLOSING
        rw [(onOpen_preserves _ _ _).1]
        simp
      · show (onOpen { s.mgr with ws := some ReadyState.OPEN } s.app now).1.modeThrottle = 1000
        rw [(onOpen_preserves _ _ _).2.1]
        exact ht
      · show (onOpen { s.mgr with ws := some ReadyState.OPEN } s.app now).1.reconnectInterval = 3000
        rw [(onOpen_preserves _ _ _).2.2]
        exact hr
    · exact ⟨hold, hcl, ht, hr⟩
  | closeEvt =>
    simp only [step3]
    split
    · exact ⟨hold, by simp, ht, hr⟩
    · exact ⟨hold, hcl, ht, hr⟩
  | errorEvt => exact ⟨hold, hcl, ht, hr⟩
  | timerFire =>
    simp only [step3]
    split
    · exact ⟨hold, hcl, ht, hr⟩
    · exact inv3_connect ⟨hold, hcl, ht, hr⟩
  | showViewEvt viewName now =>
    have hp := showView_preserves s viewName now
    simp only [step3]
    refine ⟨?_, ?_, ?_, ?_⟩
    · rw [hp.1]; exact hold
    · rw [hp.2.1]; exact hcl
    · rw [hp.2.2.1]; exact ht
    · rw [hp.2.2.2.1]; exact hr

lemma inv3_init : Inv3 init3 := by
  apply inv3_connect
  refine ⟨by simp, by simp [WSManager.mk0], rfl, rfl⟩

lemma inv3_run (evs : List Ev3) : Inv3 (run3 evs) := by
  unfold run3
  induction evs using List.reverseRecOn with
  | nil => exact inv3_init
  | append_singleton xs e ih =>
    rw [List.foldl_append]
    exact inv3_step ih e

lemma inv2_step {s : Sys2} (h : Inv2 s) (e : Ev2) : Inv2 (step2 s e) := by
  obtain ⟨hold, hcl⟩ := h
  cases e with
  | openEvt =>
    simp only [step2]
    split <;> exact ⟨hold, by simp_all⟩
  | closeEvt =>
    simp only [step2]
    split <;> exact ⟨hold, by simp_all⟩
  | errorEvt => exact ⟨hold, hcl⟩
  | timerFire =>
    simp only [step2]
    split
    · exact ⟨hold, hcl⟩
    · split
      · rename_i hclosed
        unfold connectWebSocket
        refine ⟨?_, by simp⟩
        simp [hclosed]
        intro x hx
        exact hold x hx
      · exact ⟨hold, hcl⟩

lemma inv2_run (evs : List Ev2) : Inv2 (run2 evs) := by
  unfold run2
  induction evs using List.reverseRecOn with
  | nil =>
    refine ⟨by simp [init2, connectWebSocket], by simp [init2, connectWebSocket]⟩
  | append_singleton xs e ih =>
    rw [List.foldl_append]
    exact inv2_step ih e

lemma liveCount_le_one {s : Sys3} (h : Inv3 s) : liveCount s ≤ 1 := by
  obtain ⟨hold, _, _, _⟩ := h
  have hfilt : s.oldSockets.filter isLive = [] := by
    apply List.filter_eq_nil_iff.mpr
    intro r hr
    rw [hold r hr]
    simp [isLive]
  unfold liveCount
  rw [List.filter_append, hfilt, List.append_nil]
  cases s.mgr.ws with
  | none => simp
  | some r => cases r <;> simp [isLive]

lemma liveCount2_le_one {s : Sys2} (h : Inv2 s) : liveCount2 s ≤ 1 := by
  obtain ⟨hold, _⟩ := h
  have hfilt : s.oldSockets.filter isLive = [] := by
    apply List.filter_eq_nil_iff.mpr
    intro r hr
    rw [hold r hr]
    simp [isLive]
  unfold liveCount2
  rw [List.filter_append, hfilt, List.append_nil]
  cases s.socket with
  | none => simp
  | some r => cases r <;> simp [isLive]

lemma getHandlers_nil (k : String) : getHandlers [] k = [] := rfl

lemma getHandlers_cons (x : String × List Nat) (hs : Handlers) (k : String) :
    getHandlers (x :: hs) k = if x.1 = k then x.2 else getHandlers hs k := by
  unfold getHandlers
  by_cases hx : x.1 = k <;> simp [List.find?, hx]

lemma getHandlers_map_other (hs : Handlers) (kk k : String) (cb : Nat)
    (hne : ¬ k = kk) :
    getHandlers (hs.map (fun p => if p.1 = kk then (p.1, p.2 ++ [cb]) else p)) k =
      getHandlers hs k := by
  have hne' : ¬ kk = k := fun h => hne h.symm
  induction hs with
  | nil => simp [getHandlers_nil]
  | cons x xs ih =>
    by_cases hx : x.1 = kk
    · have hk : ¬ x.1 = k := fun h => hne (h.symm.trans hx)
      simp [List.map_cons, getHandlers_cons, hx, hk, hne, hne', ih]
    · by_cases hk : x.1 = k <;>
        simp [List.map_cons, getHandlers_cons, hx, hk, hne, hne', ih]

lemma getHandlers_map_push (hs : Handlers) (kk : String) (cb : Nat)
    (hany : hs.any (fun p => p.1 = kk) = true) :
    getHandlers (hs.map (fun p => if p.1 = kk then (p.1, p.2 ++ [cb]) else p)) kk =
      getHandlers hs kk ++ [cb] := by
  induction hs with
  | nil => simp at hany
  | cons x xs ih =>
    by_cases hx : x.1 = kk
    · simp [List.map_cons, getHandlers_cons, hx]
    · have hany' : xs.any (fun p => p.1 = kk) = true := by
        cases heq : xs.any (fun p => p.1 = kk)
        · rw [List.any_cons, heq] at hany
          simp [hx] at hany
        · rfl
      simp [List.map_cons, getHandlers_cons, hx, ih hany']

lemma getHandlers_append_new (hs : Handlers) (kk k : String) (cb : Nat)
    (hnone : hs.any (fun p => p.1 = kk) = false) :
    getHandlers (hs ++ [(kk, [cb])]) k =
      if k = kk then getHandlers hs k ++ [cb] else getHandlers hs k := by
  induction hs with
  | nil =>
    by_cases hk : k = kk <;> simp [getHandlers_nil, getHandlers_cons, hk]
    · intro h
      exact absurd h.symm hk
  | cons x xs ih =>
    simp only [List.any_cons, Bool.or_eq_false_iff] at hnone
    by_cases hk : x.1 = k
    · have : ¬ k = kk := by
        intro h
        rw [h] at hk
        simp [hk] at hnone
      simp [List.cons_append, getHandlers_cons, hk, this]
    · simp [List.cons_append, getHandlers_cons, hk, ih hnone.2]

/-- `on` appends the callback to exactly the registered key's list
(creating it when absent), leaving every other key's list untouched. -/
lemma getHandlers_onKey (hs : Handlers) (kk k : String) (cb : Nat) :
    getHandlers (onKey hs kk cb) k =
      if k = kk then getHandlers hs k ++ [cb] else getHandlers hs k := by
  unfold onKey
  by_cases hany : hs.any (fun p => p.1 = kk)
  · rw [if_pos hany]
    by_cases hk : k = kk
    · rw [hk, getHandlers_map_push hs kk cb hany, if_pos rfl]
    · rw [getHandlers_map_other hs kk k cb hk, if_neg hk]
  · rw [if_neg hany]
    have hfalse : hs.any (fun p => p.1 = kk) = false := by
      revert hany
      cases hs.any (fun p => p.1 = kk) <;> simp
    exact getHandlers_append_new hs kk k cb hfalse

lemma getHandlers_foldl (regs : List (String × Nat)) (hs : Handlers)
    (k : String) :
    getHandlers (regs.foldl (fun h r => onKey h r.1 r.2) hs) k =
      getHandlers hs k ++ listenersOf regs k := by
  induction regs generalizing hs with
  | nil => simp [listenersOf]
  | cons r rs ih =>
    rw [List.foldl_cons, ih, getHandlers_onKey]
    by_cases hk : r.1 = k
    · simp [listenersOf, List.filter_cons, hk, eq_comm]
    · have : ¬ k = r.1 := fun h => hk h.symm
      simp [listenersOf, List.filter_cons, hk, this]

/-- The `Map`-backed registry refines the flat registration list: lookup
returns exactly the callbacks registered under that key, in order. -/
lemma getHandlers_applyRegs (regs : List (String × Nat)) (k : String) :
    getHandlers (applyRegs regs) k = listenersOf regs k := by
  unfold applyRegs
  rw [getHandlers_foldl]
  simp [getHandlers_nil]

lemma setMode_fst (s : StoreState) (v : Option String) :
    (setMode s v).1.mode = v ∧ (setMode s v).1.wsStatus = s.wsStatus ∧
    (setMode s v).1.voiceState = s.voiceState := by
  unfold setMode
  split <;> simp_all

lemma setWSStatus_fst (s : StoreState) (v : String) :
    (setWSStatus s v).1.wsStatus = v ∧ (setWSStatus s v).1.mode = s.mode ∧
    (setWSStatus s v).1.voiceState = s.voiceState := by
  unfold setWSStatus
  split <;> simp_all

lemma setVoiceState_fst (s : StoreState) (v : String) :
    (setVoiceState s v).1.voiceState = v ∧ (setVoiceState s v).1.mode = s.mode ∧
    (setVoiceState s v).1.wsStatus = s.wsStatus := by
  unfold setVoiceState
  split <;> simp_all

/-- A forced `sendMode` on an open channel always transmits exactly one
mode frame and consumes the throttle timestamp. -/
lemma sendMode_force_open (m : WSManager) (now : Int) (mode : String)
    (h : m.ws = some ReadyState.OPEN) :
    m.sendMode now mode true =
      ({ m with lastModeSwitch := now }, [{ type := "mode", value := mode }],
        SendOutcome.sent) := by
  unfold WSManager.sendMode WSManager.sendFrame
  simp [h]

lemma onOpen_spec (mgr : WSManager) (app : StoreState) (now : Int)
    (hopen : mgr.ws = some ReadyState.OPEN) :
    (onOpen mgr app now).2.1 = (setWSStatus app "CONNECTED").1 ∧
    (∀ md, app.mode = some md →
      (onOpen mgr app now).2.2 = [{ type := "mode", value := md }]) ∧
    (app.mode = none → (onOpen mgr app now).2.2 = []) := by
  have hmp : (setWSStatus app "CONNECTED").1.mode = app.mode :=
    (setWSStatus_fst app "CONNECTED").2.1
  unfold onOpen
  cases hmode : (setWSStatus app "CONNECTED").1.mode with
  | some md =>
    rw [hmp] at hmode
    refine ⟨by simp [hmp, hmode], ?_, ?_⟩
    · intro md' hmd'
      rw [hmode] at hmd'
      cases hmd'
      simp [hmp, hmode, sendMode_force_open mgr now md hopen]
    · intro hnone
      rw [hmode] at hnone
      cases hnone
  | none =>
    rw [hmp] at hmode
    refine ⟨by simp [hmp, hmode], ?_, fun _ => by simp [hmp, hmode]⟩
    intro md hmd
    rw [hmode] at hmd
    cases hmd

lemma sockets3_length (s : Sys3) :
    (sockets3 s).length = s.mgr.ws.toList.length + s.oldSockets.length := by
  simp [sockets3]

lemma sockets3_showView (s : Sys3) (viewName : String) (now : Int) :
    sockets3 (showView s viewName now) = sockets3 s := by
  have hp := showView_preserves s viewName now
  simp [sockets3, hp.1, hp.2.1]

/-- `connect` creates a socket only when every socket created so far is
closed. -/
lemma connect_growth (t : Sys3) (hcl : t.mgr.ws ≠ some ReadyState.CLOSING)
    (hold : ∀ r ∈ t.oldSockets, r = ReadyState.CLOSED)
    (hg : (sockets3 (connect t)).length > (sockets3 t).length) :
    ∀ r ∈ sockets3 t, r = ReadyState.CLOSED := by
  unfold connect at hg
  by_cases hlive : t.mgr.ws = some ReadyState.OPEN ∨
      t.mgr.ws = some ReadyState.CONNECTING
  · rw [if_pos hlive] at hg
    exact absurd hg (lt_irrefl _)
  · push_neg at hlive
    cases hws : t.mgr.ws with
    | none =>
      intro r hrm
      exact hold r (by simpa [sockets3, hws] using hrm)
    | some r0 =>
      have hr0 : r0 = ReadyState.CLOSED := by
        cases r0 with
        | CONNECTING => exact absurd hws hlive.2
        | OPEN => exact absurd hws hlive.1
        | CLOSING => exact absurd hws hcl
        | CLOSED => rfl
      intro r hrm
      rcases (by simpa [sockets3, hws] using hrm : r = r0 ∨ r ∈ t.oldSockets) with
        h1 | h2
      · rw [h1, hr0]
      · exact hold r h2

/-- A step of the core machine creates a new socket only when every
socket created so far is closed. -/
lemma sockets3_step_growth {s : Sys3} (h : Inv3 s) (e : Ev3)
    (hg : (sockets3 (step3 s e)).length > (sockets3 s).length) :
    ∀ r ∈ sockets3 s, r = ReadyState.CLOSED := by
  obtain ⟨hold, hcl, ht, hr⟩ := h
  cases e with
  | openEvt now =>
    exfalso
    revert hg
    simp only [step3]
    split
    · rename_i hcon
      have hws := (onOpen_preserves { s.mgr with ws := some ReadyState.OPEN } s.app now).1
      simp [sockets3_length, hws, hcon]
    · simp
  | closeEvt =>
    exfalso
    revert hg
    simp only [step3]
    split
    · rename_i hlive
      rcases hlive with hws | hws <;> simp [sockets3_length, hws]
    · simp
  | errorEvt =>
    exfalso
    simp [step3] at hg
  | timerFire =>
    simp only [step3] at hg
    cases htm : s.timers with
    | nil =>
      rw [htm] at hg
      exact absurd hg (lt_irrefl _)
    | cons d rest =>
      rw [htm] at hg
      have hg2 : (sockets3 (connect { s with app := (setWSStatus s.app "RECONNECTING").1, timers := rest })).length > (sockets3 s).length := hg
      exact fun r hrm => connect_growth { s with app := (setWSStatus s.app "RECONNECTING").1, timers := rest } hcl hold hg2 r hrm
  | showViewEvt viewName now =>
    exfalso
    rw [step3, sockets3_showView] at hg
    omega

lemma sockets2_length (s : Sys2) :
    (sockets2 s).length = s.socket.toList.length + s.oldSockets.length := by
  simp [sockets2]

/-- A step of the legacy client machine creates a new socket only when
every socket created so far is closed. -/
lemma sockets2_step_growth {s : Sys2} (h : Inv2 s) (e : Ev2)
    (hg : (sockets2 (step2 s e)).length > (sockets2 s).length) :
    ∀ r ∈ sockets2 s, r = ReadyState.CLOSED := by
  obtain ⟨hold, hcl⟩ := h
  cases e with
  | openEvt =>
    exfalso
    revert hg
    simp only [step2]
    split
    · rename_i hcon
      simp [sockets2_length, hcon]
    · simp
  | closeEvt =>
    exfalso
    revert hg
    simp only [step2]
    split
    · rename_i hlive
      rcases hlive with hws | hws <;> simp [sockets2_length, hws]
    · simp
  | errorEvt =>
    exfalso
    simp [step2] at hg
  | timerFire =>
    simp only [step2] at hg
    cases htm : s.timers with
    | nil =>
      rw [htm] at hg
      exact absurd hg (lt_irrefl _)
    | cons d rest =>
      rw [htm] at hg
      by_cases hc : s.socket = some ReadyState.CLOSED
      · intro r hrm
        rcases (by simpa [sockets2, hc] using hrm : r = ReadyState.CLOSED ∨
            r ∈ s.oldSockets) with h1 | h2
        · exact h1
        · exact hold r h2
      · exfalso
        have hg2 : (sockets2 (if s.socket = some ReadyState.CLOSED then
            connectWebSocket { s with timers := rest }
            else { s with timers := rest })).length > (sockets2 s).length := hg
        rw [if_neg hc] at hg2
        exact absurd hg2 (lt_irrefl _)

lemma count_filter_ne_self (l : List Nat) (cb : Nat) :
    (l.filter (fun x => x ≠ cb)).count cb = 0 := by
  rw [List.count_eq_zero]
  intro hmem
  have := List.of_mem_filter hmem
  simp at this

/-- C1 counterexample: the claim says no local code path (audio playback
start, end or error) changes the voice sub-state, but the voice adapter's
`currentAudio.onplay` callback — a purely local playback event, not a
backend `state` message — calls `AppState.setVoiceState('PLAYING')` and
changes the voice sub-state from `IDLE` to `PLAYING`. -/
theorem voiceState_changed_by_local_audio_play :
    (voiceHandle { mode := some "VOICE", wsStatus := "CONNECTED", voiceState := "IDLE" }
        VoiceEvent.audioOnPlay).voiceState = "PLAYING" ∧
    ("PLAYING" : String) ≠ "IDLE" := by
  constructor
  · rfl
  · decide

/-- C1 (amended): the voice sub-state is mutated not only by
backend-originated `state` messages (which set it to the message's value,
only while the mode is VOICE) but also by the local audio playback
callbacks — `onplay` sets `PLAYING`, `onended` and `onerror` set
`IDLE` — and by backend `error` messages (which force `IDLE` while the
mode is VOICE); all these paths touch only the voice sub-state, leaving
`mode` and `wsStatus` unchanged. -/
theorem voiceState_mutation_paths (s : StoreState) :
    (voiceHandle s VoiceEvent.audioOnPlay).voiceState = "PLAYING" ∧
    (voiceHandle s VoiceEvent.audioOnEnded).voiceState = "IDLE" ∧
    (voiceHandle s VoiceEvent.audioOnError).voiceState = "IDLE" ∧
    (∀ v, s.mode = some "VOICE" →
      (voiceHandle s (VoiceEvent.stateMsg v)).voiceState = v) ∧
    (∀ v, s.mode ≠ some "VOICE" → voiceHandle s (VoiceEvent.stateMsg v) = s) ∧
    (∀ m, s.mode = some "VOICE" →
      (voiceHandle s (VoiceEvent.errorMsg m)).voiceState = "IDLE") ∧
    (∀ e, (voiceHandle s e).mode = s.mode ∧
      (voiceHandle s e).wsStatus = s.wsStatus) := by
  refine ⟨(setVoiceState_fst s "PLAYING").1, (setVoiceState_fst s "IDLE").1,
    (setVoiceState_fst s "IDLE").1, ?_, ?_, ?_, ?_⟩
  · intro v hv
    simp [voiceHandle, hv, (setVoiceState_fst s v).1]
  · intro v hv
    simp [voiceHandle, hv]
  · intro m hv
    simp [voiceHandle, hv, (setVoiceState_fst s "IDLE").1]
  · intro e
    cases e with
    | audioOnPlay =>
      exact ⟨(setVoiceState_fst s "PLAYING").2.1, (setVoiceState_fst s "PLAYING").2.2⟩
    | audioOnEnded =>
      exact ⟨(setVoiceState_fst s "IDLE").2.1, (setVoiceState_fst s "IDLE").2.2⟩
    | audioOnError =>
      exact ⟨(setVoiceState_fst s "IDLE").2.1, (setVoiceState_fst s "IDLE").2.2⟩
    | stateMsg v =>
      by_cases hv : s.mode = some "VOICE" <;>
        simp [voiceHandle, hv, (setVoiceState_fst s v).2.1, (setVoiceState_fst s v).2.2]
    | errorMsg m =>
      by_cases hv : s.mode = some "VOICE" <;>
        simp [voiceHandle, hv, (setVoiceState_fst s "IDLE").2.1,
          (setVoiceState_fst s "IDLE").2.2]

/-- Witness for the amended C1 theorem at concrete states: a backend
`state` message sets the voice sub-state while the mode is VOICE, and is
ignored while the mode is VISION. -/
theorem voiceState_mutation_paths_witness :
    (voiceHandle { mode := some "VOICE", wsStatus := "CONNECTED", voiceState := "WAITING" }
        (VoiceEvent.stateMsg "LISTENING")).voiceState = "LISTENING" ∧
    voiceHandle { mode := some "VISION", wsStatus := "CONNECTED", voiceState := "IDLE" }
        (VoiceEvent.stateMsg "LISTENING") =
      { mode := some "VISION", wsStatus := "CONNECTED", voiceState := "IDLE" } :=
  ⟨(voiceState_mutation_paths _).2.2.2.1 "LISTENING" rfl,
   (voiceState_mutation_paths _).2.2.2.2.1 "LISTENING" (by decide)⟩

/-- C2: a non-forced `sendMode` issued less than the 1000 ms throttle
window after the last successful send is dropped (state untouched,
nothing transmitted); a forced `sendMode` is never throttled and, on an
open channel, always transmits exactly one mode frame; and
`lastModeSwitch` is updated exactly when the underlying `send` succeeded,
so a send dropped because the channel was closed leaves the throttle
window untouched. -/
theorem sendMode_throttle_contract (m : WSManager) (now : Int) (mode : String) :
    (m.modeThrottle = 1000 → now - m.lastModeSwitch < 1000 →
      m.sendMode now mode false = (m, [], SendOutcome.throttled)) ∧
    ((m.sendMode now mode true).2.2 ≠ SendOutcome.throttled) ∧
    (m.ws = some ReadyState.OPEN →
      m.sendMode now mode true =
        ({ m with lastModeSwitch := now }, [{ type := "mode", value := mode }],
          SendOutcome.sent)) ∧
    (∀ force,
      ((m.sendMode now mode force).2.2 = SendOutcome.sent →
        (m.sendMode now mode force).1.lastModeSwitch = now) ∧
      ((m.sendMode now mode force).2.2 ≠ SendOutcome.sent →
        (m.sendMode now mode force).1 = m)) ∧
    (m.ws ≠ some ReadyState.OPEN → ∀ force, (m.sendMode now mode force).1 = m) := by
  refine ⟨?_, ?_, sendMode_force_open m now mode, ?_, ?_⟩
  · intro ht hlt
    unfold WSManager.sendMode
    rw [if_pos (by simp [ht]; omega)]
  · unfold WSManager.sendMode WSManager.sendFrame
    by_cases hopen : m.ws = some ReadyState.OPEN <;> simp [hopen]
  · intro force
    unfold WSManager.sendMode WSManager.sendFrame
    split
    · simp
    · by_cases hopen : m.ws = some ReadyState.OPEN <;> simp [hopen]
  · intro hopen force
    unfold WSManager.sendMode WSManager.sendFrame
    split
    · rfl
    · simp [hopen]

/-- Witness for C2: starting from the constructor state (timestamp 0) on
an open channel, a non-forced call at `now = 500` is throttled. -/
theorem sendMode_throttle_contract_witness :
    ({ WSManager.mk0 with ws := some ReadyState.OPEN } : WSManager).sendMode 500 "VOICE" false =
      ({ WSManager.mk0 with ws := some ReadyState.OPEN }, [], SendOutcome.throttled) :=
  (sendMode_throttle_contract _ 500 "VOICE").1 rfl (by decide)

/-- C3: over any sequence of setter calls, a subscriber id receives
exactly one notification per registration per call whose argument differs
from the field's current value (so exactly one when subscribed once), and
an equal-value call mutates nothing and notifies nobody. -/
theorem setters_notify_once_per_change (s : StoreState) (listeners : List Nat)
    (cs : List SetterCall) (l : Nat) :
    countInvocations l (runCalls s listeners cs).2 =
      listeners.count l * countChanging s cs ∧
    (∀ c, changesField s c = false → applyCall s c = (s, false)) :=
  ⟨countInvocations_runCalls s listeners cs l,
   fun c hc => applyCall_fst_of_not_changes s c hc⟩

/-- Witness for C3: subscriber 7, subscribed once, is notified exactly
once across a changing call followed by an equal-value repeat, and the
equal-value call `setWSStatus("DISCONNECTED")` from the initial state is
a complete no-op. -/
theorem setters_notify_once_per_change_witness :
    countInvocations 7 (runCalls initState [7]
      [SetterCall.callSetMode (some "VISION"),
       SetterCall.callSetMode (some "VISION")]).2 = 1 ∧
    applyCall initState (SetterCall.callSetWSStatus "DISCONNECTED") =
      (initState, false) := by
  constructor
  · rw [(setters_notify_once_per_change initState [7]
      [SetterCall.callSetMode (some "VISION"),
       SetterCall.callSetMode (some "VISION")] 7).1]
    decide
  · exact (setters_notify_once_per_change initState [] [] 0).2
      (SetterCall.callSetWSStatus "DISCONNECTED") (by decide)

/-- C4: in every reachable state of the core machine at most one socket
ever created is open or opening, `connect()` is a no-op while the current
socket is open or opening, and any step that creates a new socket does so
only when every socket created so far is closed (its close callback has
fired); the same two lifecycle facts hold for the legacy client's
`connectWebSocket` machine. -/
theorem single_live_connection (evs3 : List Ev3) (evs2 : List Ev2) :
    liveCount (run3 evs3) ≤ 1 ∧
    (((run3 evs3).mgr.ws = some ReadyState.OPEN ∨
      (run3 evs3).mgr.ws = some ReadyState.CONNECTING) →
      connect (run3 evs3) = run3 evs3) ∧
    (∀ e, (sockets3 (step3 (run3 evs3) e)).length > (sockets3 (run3 evs3)).length →
      ∀ r ∈ sockets3 (run3 evs3), r = ReadyState.CLOSED) ∧
    liveCount2 (run2 evs2) ≤ 1 ∧
    (∀ e, (sockets2 (step2 (run2 evs2) e)).length > (sockets2 (run2 evs2)).length →
      ∀ r ∈ sockets2 (run2 evs2), r = ReadyState.CLOSED) := by
  refine ⟨liveCount_le_one (inv3_run evs3), ?_,
    fun e hg => sockets3_step_growth (inv3_run evs3) e hg,
    liveCount2_le_one (inv2_run evs2),
    fun e hg => sockets2_step_growth (inv2_run evs2) e hg⟩
  intro hlive
  unfold connect
  rw [if_pos hlive]

/-- Witness for C4: on page load a live (connecting) socket exists, so
`connect()` is a no-op there; and after a close event, the (sole) prior
socket is closed, which is what licenses the reconnect timer's new
socket. -/
theorem single_live_connection_witness :
    liveCount (run3 []) ≤ 1 ∧
    connect (run3 []) = run3 [] ∧
    (∀ r ∈ sockets3 (run3 [Ev3.closeEvt]), r = ReadyState.CLOSED) := by
  refine ⟨(single_live_connection [] []).1,
    (single_live_connection [] []).2.1 (Or.inr (by decide)), ?_⟩
  exact (single_live_connection [Ev3.closeEvt] []).2.2.1 Ev3.timerFire (by decide)

/-- C5: when the open event fires on the connecting socket, the stored
connection status becomes CONNECTED, and — whatever the current time, so
bypassing any throttle state — exactly one mode frame for the locally set
mode is appended to the outbox within that same step when a mode is set,
and none when no mode is set. -/
theorem open_event_forced_sync (evs : List Ev3) (now : Int) :
    (run3 evs).mgr.ws = some ReadyState.CONNECTING →
    (step3 (run3 evs) (Ev3.openEvt now)).app.wsStatus = "CONNECTED" ∧
    (∀ md, (run3 evs).app.mode = some md →
      (step3 (run3 evs) (Ev3.openEvt now)).outbox =
        (run3 evs).outbox ++ [{ type := "mode", value := md }]) ∧
    ((run3 evs).app.mode = none →
      (step3 (run3 evs) (Ev3.openEvt now)).outbox = (run3 evs).outbox) := by
  intro hws
  have hopen : ({ (run3 evs).mgr with ws := some ReadyState.OPEN } : WSManager).ws =
      some ReadyState.OPEN := rfl
  have hspec := onOpen_spec { (run3 evs).mgr with ws := some ReadyState.OPEN }
    (run3 evs).app now hopen
  have hstep : step3 (run3 evs) (Ev3.openEvt now) =
      { run3 evs with
        mgr := (onOpen { (run3 evs).mgr with ws := some ReadyState.OPEN }
          (run3 evs).app now).1
        app := (onOpen { (run3 evs).mgr with ws := some ReadyState.OPEN }
          (run3 evs).app now).2.1
        outbox := (run3 evs).outbox ++
          (onOpen { (run3 evs).mgr with ws := some ReadyState.OPEN }
            (run3 evs).app now).2.2 } := by
    simp only [step3]
    rw [if_pos hws]
  refine ⟨?_, ?_, ?_⟩
  · rw [hstep]
    show (onOpen { (run3 evs).mgr with ws := some ReadyState.OPEN }
      (run3 evs).app now).2.1.wsStatus = "CONNECTED"
    rw [hspec.1]
    exact (setWSStatus_fst (run3 evs).app "CONNECTED").1
  · intro md hmd
    rw [hstep]
    show (run3 evs).outbox ++ (onOpen { (run3 evs).mgr with ws := some ReadyState.OPEN }
      (run3 evs).app now).2.2 = _
    rw [hspec.2.1 md hmd]
  · intro hnone
    rw [hstep]
    show (run3 evs).outbox ++ (onOpen { (run3 evs).mgr with ws := some ReadyState.OPEN }
      (run3 evs).app now).2.2 = _
    rw [hspec.2.2 hnone]
    simp

/-- Witness for C5: after the user opened the voice view (mode VOICE) the
open event at time 42 pushes exactly one forced mode frame; on a fresh
page with no mode set it pushes none. -/
theorem open_event_forced_sync_witness :
    (step3 (run3 [Ev3.showViewEvt "voice" 0]) (Ev3.openEvt 42)).outbox =
      (run3 [Ev3.showViewEvt "voice" 0]).outbox ++ [{ type := "mode", value := "VOICE" }] ∧
    (step3 (run3 []) (Ev3.openEvt 42)).outbox = (run3 []).outbox := by
  constructor
  · exact ((open_event_forced_sync [Ev3.showViewEvt "voice" 0] 42) (by decide)).2.1
      "VOICE" (by decide)
  · exact ((open_event_forced_sync [] 42) (by decide)).2.2 (by decide)

/-- C6: a close event on a live socket (any close code) sets the stored
status to DISCONNECTED immediately (not RECONNECTING) and appends a
reconnect timer with the fixed 3000 ms delay; when a pending reconnect
timer fires, the status becomes RECONNECTING at that moment and, the
previous socket being closed, a new connection attempt (a fresh
connecting socket) is made in the same step. -/
theorem close_then_timed_reconnect (evs : List Ev3) :
    (((run3 evs).mgr.ws = some ReadyState.OPEN ∨
      (run3 evs).mgr.ws = some ReadyState.CONNECTING) →
      (step3 (run3 evs) Ev3.closeEvt).app.wsStatus = "DISCONNECTED" ∧
      (step3 (run3 evs) Ev3.closeEvt).timers = (run3 evs).timers ++ [3000] ∧
      (step3 (run3 evs) Ev3.closeEvt).mgr.ws = some ReadyState.CLOSED) ∧
    (∀ d rest, (run3 evs).timers = d :: rest →
      (step3 (run3 evs) Ev3.timerFire).app.wsStatus = "RECONNECTING" ∧
      ((run3 evs).mgr.ws = some ReadyState.CLOSED →
        (step3 (run3 evs) Ev3.timerFire).mgr.ws = some ReadyState.CONNECTING)) := by
  constructor
  · intro hlive
    have hcond : (run3 evs).mgr.ws = some ReadyState.CONNECTING ∨
        (run3 evs).mgr.ws = some ReadyState.OPEN := hlive.symm
    have hr : (run3 evs).mgr.reconnectInterval = 3000 := (inv3_run evs).2.2.2
    have hstep : step3 (run3 evs) Ev3.closeEvt =
        { run3 evs with
          mgr := { (run3 evs).mgr with ws := some ReadyState.CLOSED }
          app := (setWSStatus (run3 evs).app "DISCONNECTED").1
          timers := (run3 evs).timers ++ [(run3 evs).mgr.reconnectInterval] } := by
      simp only [step3]
      rw [if_pos hcond]
    refine ⟨?_, ?_, ?_⟩
    · rw [hstep]
      exact (setWSStatus_fst (run3 evs).app "DISCONNECTED").1
    · rw [hstep]
      show (run3 evs).timers ++ [(run3 evs).mgr.reconnectInterval] = _
      rw [hr]
    · rw [hstep]
  · intro d rest htm
    have hstep : step3 (run3 evs) Ev3.timerFire =
        connect { run3 evs with
          app := (setWSStatus (run3 evs).app "RECONNECTING").1, timers := rest } := by
      simp only [step3]
      rw [htm]
    have happ : (connect { run3 evs with
        app := (setWSStatus (run3 evs).app "RECONNECTING").1, timers := rest }).app =
        (setWSStatus (run3 evs).app "RECONNECTING").1 := by
      unfold connect
      split <;> rfl
    constructor
    · rw [hstep, happ]
      exact (setWSStatus_fst (run3 evs).app "RECONNECTING").1
    · intro hclosed
      rw [hstep]
      unfold connect
      split
      · rename_i hlive
        exfalso
        rcases hlive with h | h
        · have h' : (run3 evs).mgr.ws = some ReadyState.OPEN := h
          rw [hclosed] at h'
          cases h'
        · have h' : (run3 evs).mgr.ws = some ReadyState.CONNECTING := h
          rw [hclosed] at h'
          cases h'
      · rfl

/-- Witness for C6: from the freshly loaded page (socket connecting), a
close event yields DISCONNECTED with a single 3000 ms timer; firing that
timer yields RECONNECTING and a fresh connecting socket. -/
theorem close_then_timed_reconnect_witness :
    (step3 (run3 []) Ev3.closeEvt).app.wsStatus = "DISCONNECTED" ∧
    (step3 (run3 []) Ev3.closeEvt).timers = (run3 []).timers ++ [3000] ∧
    (step3 (run3 [Ev3.closeEvt]) Ev3.timerFire).app.wsStatus = "RECONNECTING" ∧
    (step3 (run3 [Ev3.closeEvt]) Ev3.timerFire).mgr.ws = some ReadyState.CONNECTING := by
  have h1 := (close_then_timed_reconnect []).1 (Or.inr (by decide))
  have h2 := (close_then_timed_reconnect [Ev3.closeEvt]).2 3000 [] (by decide)
  exact ⟨h1.1, h1.2.1, h2.1, h2.2 (by decide)⟩

/-- C7: dispatching a message invokes, in registration order, every
listener registered under the message's `type`, followed — exactly when
the type is `action` — by every listener registered under the composite
key `action:<action>`; a message whose type has no registered listeners
(and is not `action`) produces no invocations at all. -/
theorem route_two_tier_dispatch (regs : List (String × Nat)) (d : Msg) :
    routeMessage (applyRegs regs) d =
      (listenersOf regs d.type).map (fun cb => (cb, d)) ++
      (if d.type = "action" then
        (listenersOf regs ("action:" ++ d.action)).map (fun cb => (cb, d))
      else []) ∧
    (listenersOf regs d.type = [] ∧ d.type ≠ "action" →
      routeMessage (applyRegs regs) d = []) := by
  have hmain : routeMessage (applyRegs regs) d =
      (listenersOf regs d.type).map (fun cb => (cb, d)) ++
      (if d.type = "action" then
        (listenersOf regs ("action:" ++ d.action)).map (fun cb => (cb, d))
      else []) := by
    unfold routeMessage
    rw [getHandlers_applyRegs, getHandlers_applyRegs]
    by_cases h : d.type = "action" <;> simp [h]
  refine ⟨hmain, ?_⟩
  rintro ⟨h1, h2⟩
  rw [hmain, h1]
  simp [h2]

/-- Witness for C7: with a generic `action` listener (id 1) and an
`action:wave` listener (id 2) registered, a wave action message invokes
both, type listener first; an unregistered `video` message is silently
dropped. -/
theorem route_two_tier_dispatch_witness :
    routeMessage (applyRegs [("action", 1), ("action:wave", 2)])
        { type := "action", action := "wave" } =
      [(1, { type := "action", action := "wave" }),
       (2, { type := "action", action := "wave" })] ∧
    routeMessage (applyRegs [("action", 1)]) { type := "video", action := "" } = [] := by
  constructor
  · rw [(route_two_tier_dispatch [("action", 1), ("action:wave", 2)]
      { type := "action", action := "wave" }).1]
    decide
  · exact (route_two_tier_dispatch [("action", 1)]
      { type := "video", action := "" }).2 ⟨by decide, by decide⟩

/-- C8: subscribing after any sequence of state changes invokes the new
callback exactly once, synchronously, with the state as of the last
change (the single immediate invocation event carries exactly that
snapshot), appends the callback to the listener list, and the returned
unsubscribe closure removes it again. -/
theorem subscribe_immediate_snapshot (s0 : StoreState) (ls : List Nat)
    (cs : List SetterCall) (cb : Nat) :
    (Store.subscribeCb { state := (runCalls s0 ls cs).1, listeners := ls } cb).2 =
      (cb, (runCalls s0 ls cs).1) ∧
    (Store.subscribeCb { state := (runCalls s0 ls cs).1, listeners := ls } cb).1 =
      { state := (runCalls s0 ls cs).1, listeners := ls ++ [cb] } ∧
    (Store.unsubscribeCb
      (Store.subscribeCb { state := (runCalls s0 ls cs).1, listeners := ls } cb).1
      cb).listeners.count cb = 0 := by
  refine ⟨rfl, rfl, ?_⟩
  exact count_filter_ne_self (ls ++ [cb]) cb

/-- C9: a frame the parser rejects produces no listener invocation and no
state change — the handler catches the failure, and the channel object is
returned untouched by every inbound frame (so an open channel stays
open). -/
theorem malformed_frame_inert (m : WSManager) (hs : Handlers)
    (parse : String → Option Msg) (frame : String) :
    (parse frame = none → onMessage m hs parse frame = (m, [])) ∧
    (onMessage m hs parse frame).1 = m := by
  constructor
  · intro h
    simp [onMessage, h]
  · unfold onMessage
    cases parse frame <;> rfl

/-- Witness for C9: a non-JSON frame under a parser that rejects it
yields no invocations and leaves the open channel untouched. -/
theorem malformed_frame_inert_witness :
    onMessage { WSManager.mk0 with ws := some ReadyState.OPEN }
      [("state", [3])] (fun _ => none) "not json" =
      ({ WSManager.mk0 with ws := some ReadyState.OPEN }, []) :=
  (malformed_frame_inert _ _ _ _).1 rfl

/-- C10: the unsubscribe closure filters the listener list by function
identity, so one call removes every registration of that callback — even
a doubly subscribed callback is fully removed — and the callback then
receives zero notifications over any subsequent call sequence. -/
theorem unsubscribe_removes_all_registrations (st : Store) (cb : Nat)
    (cs : List SetterCall) :
    (Store.unsubscribeCb st cb).listeners.count cb = 0 ∧
    (Store.unsubscribeCb
      ((Store.subscribeCb ((Store.subscribeCb st cb).1) cb).1) cb).listeners.count cb = 0 ∧
    countInvocations cb
      (runCalls (Store.unsubscribeCb st cb).state
        (Store.unsubscribeCb st cb).listeners cs).2 = 0 := by
  refine ⟨count_filter_ne_self st.listeners cb, ?_, ?_⟩
  · exact count_filter_ne_self ((st.listeners ++ [cb]) ++ [cb]) cb
  · rw [countInvocations_runCalls]
    have h0 : (Store.unsubscribeCb st cb).listeners.count cb = 0 :=
      count_filter_ne_self st.listeners cb
    rw [h0, Nat.zero_mul]

end Holo
